import Mathlib

/-!
Shallow embedding of the solar-tracking canopy controller
(`src/main/main.c`) and proofs about its decision pipeline.

C `int` arithmetic is modelled by `Int`, and C's truncating integer
division by `Int.tdiv` (they agree on the non-negative operands that
occur in every use below).
-/

namespace SolarTracker

/- ===== Configuration constants (src/main/main.c, #define lines) ===== -/

def SERVO_MIN_US : Int := 500
def SERVO_MAX_US : Int := 2400
def SERVO_PERIOD_US : Int := 20000
def SERVO_MAX_DUTY : Int := 8191

def SUN_EAST : Int := 0
def SUN_OVERHEAD : Int := 1
def SUN_WEST : Int := 2

def LDR_THRESHOLD : Int := 150

def THINGSPEAK_API_KEY : String := "JA0W2AWRBR5KH8ZF"

/- ===== Helper functions ===== -/

/-- `clamp_int` from src/main/main.c lines 117-121. -/
def clamp_int (v lo hi : Int) : Int :=
  if v < lo then lo
  else if v > hi then hi
  else v

/- ===== FR2: sun direction (src/main/main.c lines 169-182) ===== -/

/-- `detect_sun_direction`, generalized over the threshold constant
(the source fixes it to `LDR_THRESHOLD`; see `detect_sun_direction`). -/
def classify (east west threshold : Int) : Int :=
  let horizontal_diff := east - west
  if horizontal_diff > threshold then SUN_EAST
  else if horizontal_diff < -threshold then SUN_WEST
  else SUN_OVERHEAD

/-- `detect_sun_direction` from src/main/main.c lines 169-182. -/
def detect_sun_direction (east west : Int) : Int :=
  classify east west LDR_THRESHOLD

/- ===== FR3: tilt calculation (src/main/main.c lines 185-196) ===== -/

/-- `compute_tilt_angle` from src/main/main.c lines 185-196: a C
`switch` on the direction code whose `default` shares the
`SUN_OVERHEAD` branch. -/
def compute_tilt_angle (sun_direction : Int) : Int :=
  if sun_direction = SUN_EAST then 30
  else if sun_direction = SUN_WEST then 150
  else 90

/- ===== Servo control (src/main/main.c lines 124-134) ===== -/

/-- The `pulse_width_us` expression of `set_servo_angle`
(src/main/main.c lines 125-128), after the clamp. -/
def pulse_of (angle min_pulse_us max_pulse_us : Int) : Int :=
  min_pulse_us +
    ((clamp_int angle 0 180) * (max_pulse_us - min_pulse_us)).tdiv 180

/-- The duty arithmetic of `set_servo_angle` (src/main/main.c lines
124-130), generalized over the servo constants. -/
def to_pulse (angle min_pulse_us max_pulse_us period_us max_duty : Int) : Int :=
  (pulse_of angle min_pulse_us max_pulse_us * max_duty).tdiv period_us

/-- The duty value `set_servo_angle` drives for a given angle, at the
source's servo constants. -/
def servo_duty (angle : Int) : Int :=
  to_pulse angle SERVO_MIN_US SERVO_MAX_US SERVO_PERIOD_US SERVO_MAX_DUTY

/- ===== Telemetry (src/main/main.c lines 64-90) ===== -/

/-- The URL built by `send_to_thingspeak`'s `snprintf`
(src/main/main.c lines 66-74). -/
def thingspeak_url (east west sun angle : Int) : String :=
  "http://api.thingspeak.com/update?api_key=" ++ THINGSPEAK_API_KEY ++
    "&field1=" ++ toString east ++
    "&field2=" ++ toString west ++
    "&field3=" ++ toString sun ++
    "&field4=" ++ toString angle

structure HttpRequest where
  url : String
  method : String
  deriving DecidableEq

/-- The single HTTP request `send_to_thingspeak` performs
(src/main/main.c lines 76-82: the `esp_http_client_config_t` uses the
built URL and `HTTP_METHOD_GET`). -/
def send_to_thingspeak (east west sun angle : Int) : HttpRequest :=
  ⟨thingspeak_url east west sun angle, "GET"⟩

/- ===== Spec-side direction enumeration (for the wire-format claim) ===== -/

/-- The abstract `SunDirection` enumeration of the design document. -/
inductive SunDirection where
  | east
  | overhead
  | west
  deriving DecidableEq

/-- Wire encoding of `SunDirection`: its ordinal (East=0, Overhead=1,
West=2), matching the `SUN_*` codes of the source. -/
def ordinal : SunDirection → Int
  | .east => 0
  | .overhead => 1
  | .west => 2

/-- The design document's `classify` contract, producing the abstract
enumeration. -/
def classify_spec (east west threshold : Int) : SunDirection :=
  if east - west > threshold then .east
  else if east - west < -threshold then .west
  else .overhead

/- ===== Control cycle and scheduler (src/main/main.c lines 199-264) ===== -/

/-- Environment of one loop iteration: the outcome of each fallible
collaborator call. `sensor = none` models a failing `adc_oneshot_read`
(its `ESP_ERROR_CHECK` aborts the process); `actuatorOk = false`
models a failing `ledc_set_duty`/`ledc_update_duty` (likewise wrapped
in `ESP_ERROR_CHECK`); `uplinkOk = false` models
`esp_http_client_perform` returning a non-OK `esp_err_t`. -/
structure CycleEnv where
  sensor : Option (Int × Int)
  actuatorOk : Bool
  uplinkOk : Bool
  deriving DecidableEq

structure TelemetryRecord where
  east : Int
  west : Int
  direction : Int
  angle : Int
  deriving DecidableEq

/-- Outcome of one iteration of the `while (1)` loop in `app_main`.
An aborted outcome means `ESP_ERROR_CHECK` terminated the process
before the remaining statements of the iteration ran. -/
inductive CycleOutcome where
  | abortedSensor
  | abortedActuator (duty : Int)
  | completed (duty : Int) (record : TelemetryRecord) (uplinkOk : Bool)
  deriving DecidableEq

/-- One iteration of the `app_main` loop body (src/main/main.c lines
232-262): read the LDRs, classify, compute the tilt, drive the servo,
then attempt the ThingSpeak upload whose result is only logged. -/
def run_cycle (env : CycleEnv) : CycleOutcome :=
  match env.sensor with
  | none => .abortedSensor
  | some (ldr_east, ldr_west) =>
    let sun_dir := detect_sun_direction ldr_east ldr_west
    let tilt_angle := compute_tilt_angle sun_dir
    let duty := servo_duty tilt_angle
    if env.actuatorOk then
      .completed duty ⟨ldr_east, ldr_west, sun_dir, tilt_angle⟩ env.uplinkOk
    else
      .abortedActuator duty

/-- The scheduler: `app_main`'s infinite loop run over a finite prefix
of per-cycle environments.  An aborted cycle terminates the process,
so no later environment is consumed. -/
def run_loop : List CycleEnv → List CycleOutcome
  | [] => []
  | env :: rest =>
    match run_cycle env with
    | .completed d r u => .completed d r u :: run_loop rest
    | .abortedSensor => [.abortedSensor]
    | .abortedActuator d => [.abortedActuator d]

def cycle_completed : CycleOutcome → Bool
  | .completed _ _ _ => true
  | _ => false

def cycle_duty : CycleOutcome → Option Int
  | .abortedSensor => none
  | .abortedActuator d => some d
  | .completed d _ _ => some d

/- ===================== Helper lemmas ===================== -/

theorem clamp_int_mem (v : Int) :
    0 ≤ clamp_int v 0 180 ∧ clamp_int v 0 180 ≤ 180 := by
  unfold clamp_int; split_ifs <;> omega

theorem clamp_int_eq_self {v lo hi : Int} (h1 : lo ≤ v) (h2 : v ≤ hi) :
    clamp_int v lo hi = v := by
  unfold clamp_int; split_ifs <;> omega

theorem pulse_of_bounds (angle min_pulse_us max_pulse_us : Int)
    (h1 : min_pulse_us ≤ max_pulse_us) :
    min_pulse_us ≤ pulse_of angle min_pulse_us max_pulse_us ∧
    pulse_of angle min_pulse_us max_pulse_us ≤ max_pulse_us := by
  obtain ⟨ha0, ha180⟩ := clamp_int_mem angle
  have hd : 0 ≤ max_pulse_us - min_pulse_us := by omega
  have hnum : 0 ≤ clamp_int angle 0 180 * (max_pulse_us - min_pulse_us) :=
    mul_nonneg ha0 hd
  have htd : (clamp_int angle 0 180 * (max_pulse_us - min_pulse_us)).tdiv 180 =
      clamp_int angle 0 180 * (max_pulse_us - min_pulse_us) / 180 :=
    Int.tdiv_eq_ediv hnum (by norm_num)
  have hup : clamp_int angle 0 180 * (max_pulse_us - min_pulse_us) / 180 ≤
      max_pulse_us - min_pulse_us := by
    have h2 : clamp_int angle 0 180 * (max_pulse_us - min_pulse_us) ≤
        180 * (max_pulse_us - min_pulse_us) :=
      mul_le_mul_of_nonneg_right ha180 hd
    have h3 := Int.ediv_le_ediv (by norm_num : (0 : Int) < 180) h2
    rwa [Int.mul_ediv_cancel_left _ (by norm_num)] at h3
  have hlo : 0 ≤ clamp_int angle 0 180 * (max_pulse_us - min_pulse_us) / 180 :=
    Int.ediv_nonneg hnum (by norm_num)
  unfold pulse_of
  rw [htd]
  omega

/- ===================== Theorems ===================== -/

/-- C1: for all integer east/west readings and any non-negative
threshold, `classify` returns `SUN_EAST` iff `east - west > threshold`,
`SUN_WEST` iff `east - west < -threshold`, and `SUN_OVERHEAD`
otherwise; both boundary cases `east - west = threshold` and
`east - west = -threshold` yield `SUN_OVERHEAD`. -/
theorem classify_cases (east west threshold : Int) (ht : 0 ≤ threshold) :
    (classify east west threshold = SUN_EAST ↔ east - west > threshold) ∧
    (classify east west threshold = SUN_WEST ↔ east - west < -threshold) ∧
    (classify east west threshold = SUN_OVERHEAD ↔
      ¬(east - west > threshold) ∧ ¬(east - west < -threshold)) ∧
    (east - west = threshold → classify east west threshold = SUN_OVERHEAD) ∧
    (east - west = -threshold → classify east west threshold = SUN_OVERHEAD) := by
  unfold classify SUN_EAST SUN_WEST SUN_OVERHEAD
  dsimp only
  split_ifs with h1 h2 <;>
    refine ⟨?_, ?_, ?_, ?_, ?_⟩ <;> simp_all <;> omega

theorem classify_cases_witness :
    (classify 2000 1500 150 = SUN_EAST ↔ (2000 : Int) - 1500 > 150) ∧
    (classify 2000 1500 150 = SUN_WEST ↔ (2000 : Int) - 1500 < -150) ∧
    (classify 2000 1500 150 = SUN_OVERHEAD ↔
      ¬((2000 : Int) - 1500 > 150) ∧ ¬((2000 : Int) - 1500 < -150)) ∧
    ((2000 : Int) - 1500 = 150 → classify 2000 1500 150 = SUN_OVERHEAD) ∧
    ((2000 : Int) - 1500 = -150 → classify 2000 1500 150 = SUN_OVERHEAD) :=
  classify_cases 2000 1500 150 (by decide)

/-- C2: `compute_tilt_angle` maps `SUN_EAST` to 30, `SUN_OVERHEAD` to
90, `SUN_WEST` to 150, and every other integer direction code to the
failsafe default 90. -/
theorem compute_tilt_angle_total (d : Int) :
    compute_tilt_angle SUN_EAST = 30 ∧
    compute_tilt_angle SUN_OVERHEAD = 90 ∧
    compute_tilt_angle SUN_WEST = 150 ∧
    (d ≠ SUN_EAST → d ≠ SUN_OVERHEAD → d ≠ SUN_WEST →
      compute_tilt_angle d = 90) := by
  refine ⟨by decide, by decide, by decide, fun h1 _ h3 => ?_⟩
  unfold compute_tilt_angle
  rw [if_neg h1, if_neg h3]

theorem compute_tilt_angle_total_witness :
    compute_tilt_angle SUN_EAST = 30 ∧
    compute_tilt_angle SUN_OVERHEAD = 90 ∧
    compute_tilt_angle SUN_WEST = 150 ∧
    compute_tilt_angle 7 = 90 :=
  ⟨(compute_tilt_angle_total 7).1, (compute_tilt_angle_total 7).2.1,
    (compute_tilt_angle_total 7).2.2.1,
    (compute_tilt_angle_total 7).2.2.2 (by decide) (by decide) (by decide)⟩

/-- C5: the three end-to-end scenarios of the design document, at the
source's constants: (2000, 1500) classifies East with angle 30, pulse
816 µs, duty 334; (1800, 1850) classifies Overhead with angle 90,
pulse 1450 µs, duty 593; (1000, 1600) classifies West with angle 150,
pulse 2083 µs, duty 853. -/
theorem end_to_end_scenarios :
    (detect_sun_direction 2000 1500 = SUN_EAST ∧
      compute_tilt_angle (detect_sun_direction 2000 1500) = 30 ∧
      pulse_of 30 SERVO_MIN_US SERVO_MAX_US = 816 ∧
      servo_duty 30 = 334) ∧
    (detect_sun_direction 1800 1850 = SUN_OVERHEAD ∧
      compute_tilt_angle (detect_sun_direction 1800 1850) = 90 ∧
      pulse_of 90 SERVO_MIN_US SERVO_MAX_US = 1450 ∧
      servo_duty 90 = 593) ∧
    (detect_sun_direction 1000 1600 = SUN_WEST ∧
      compute_tilt_angle (detect_sun_direction 1000 1600) = 150 ∧
      pulse_of 150 SERVO_MIN_US SERVO_MAX_US = 2083 ∧
      servo_duty 150 = 853) := by
  decide

/-- C3: for every angle in [0, 180] and parameters with
`0 ≤ min_pulse_us ≤ max_pulse_us ≤ period_us` and `0 ≤ max_duty`, the
duty computed by `set_servo_angle`'s arithmetic lies in
`[0, max_duty]`. -/
theorem duty_in_range (angle min_pulse_us max_pulse_us period_us max_duty : Int)
    (h0 : 0 ≤ min_pulse_us) (h1 : min_pulse_us ≤ max_pulse_us)
    (h2 : max_pulse_us ≤ period_us) (h3 : 0 ≤ max_duty)
    (ha : 0 ≤ angle) (ha' : angle ≤ 180) :
    0 ≤ to_pulse angle min_pulse_us max_pulse_us period_us max_duty ∧
    to_pulse angle min_pulse_us max_pulse_us period_us max_duty ≤ max_duty := by
  obtain ⟨hpl, hpu⟩ := pulse_of_bounds angle min_pulse_us max_pulse_us h1
  have hp0 : 0 ≤ pulse_of angle min_pulse_us max_pulse_us := le_trans h0 hpl
  have hper : 0 ≤ period_us := by omega
  have hnum : 0 ≤ pulse_of angle min_pulse_us max_pulse_us * max_duty :=
    mul_nonneg hp0 h3
  have htd : to_pulse angle min_pulse_us max_pulse_us period_us max_duty =
      pulse_of angle min_pulse_us max_pulse_us * max_duty / period_us :=
    Int.tdiv_eq_ediv hnum hper
  refine ⟨htd ▸ Int.ediv_nonneg hnum hper, ?_⟩
  rw [htd]
  rcases eq_or_lt_of_le hper with hz | hpos
  · rw [← hz]
    simpa using h3
  · have hmul : pulse_of angle min_pulse_us max_pulse_us * max_duty ≤
        period_us * max_duty :=
      mul_le_mul_of_nonneg_right (le_trans hpu h2) h3
    have h4 := Int.ediv_le_ediv hpos hmul
    rwa [Int.mul_ediv_cancel_left _ (ne_of_gt hpos)] at h4

theorem duty_in_range_witness :
    0 ≤ to_pulse 90 SERVO_MIN_US SERVO_MAX_US SERVO_PERIOD_US SERVO_MAX_DUTY ∧
    to_pulse 90 SERVO_MIN_US SERVO_MAX_US SERVO_PERIOD_US SERVO_MAX_DUTY ≤
      SERVO_MAX_DUTY :=
  duty_in_range 90 SERVO_MIN_US SERVO_MAX_US SERVO_PERIOD_US SERVO_MAX_DUTY
    (by decide) (by decide) (by decide) (by decide) (by decide) (by decide)

/-- C4: `set_servo_angle`'s duty arithmetic treats any out-of-range
angle exactly as the angle clamped to [0, 180]: it agrees with the
clamped input everywhere, any angle below 0 behaves as 0, and any
angle above 180 behaves as 180. -/
theorem to_pulse_clamp_equiv (angle min_pulse_us max_pulse_us period_us max_duty : Int) :
    to_pulse angle min_pulse_us max_pulse_us period_us max_duty =
      to_pulse (clamp_int angle 0 180) min_pulse_us max_pulse_us period_us max_duty ∧
    (angle < 0 → to_pulse angle min_pulse_us max_pulse_us period_us max_duty =
      to_pulse 0 min_pulse_us max_pulse_us period_us max_duty) ∧
    (180 < angle → to_pulse angle min_pulse_us max_pulse_us period_us max_duty =
      to_pulse 180 min_pulse_us max_pulse_us period_us max_duty) := by
  have key : ∀ x y : Int, clamp_int x 0 180 = clamp_int y 0 180 →
      to_pulse x min_pulse_us max_pulse_us period_us max_duty =
      to_pulse y min_pulse_us max_pulse_us period_us max_duty := by
    intro x y hxy
    unfold to_pulse pulse_of
    rw [hxy]
  refine ⟨key _ _ ?_, fun h => key _ _ ?_, fun h => key _ _ ?_⟩ <;>
    unfold clamp_int <;> split_ifs <;> omega

theorem to_pulse_clamp_equiv_witness :
    to_pulse (-10) SERVO_MIN_US SERVO_MAX_US SERVO_PERIOD_US SERVO_MAX_DUTY =
      to_pulse 0 SERVO_MIN_US SERVO_MAX_US SERVO_PERIOD_US SERVO_MAX_DUTY ∧
    to_pulse 200 SERVO_MIN_US SERVO_MAX_US SERVO_PERIOD_US SERVO_MAX_DUTY =
      to_pulse 180 SERVO_MIN_US SERVO_MAX_US SERVO_PERIOD_US SERVO_MAX_DUTY :=
  ⟨(to_pulse_clamp_equiv (-10) SERVO_MIN_US SERVO_MAX_US SERVO_PERIOD_US
      SERVO_MAX_DUTY).2.1 (by decide),
    (to_pulse_clamp_equiv 200 SERVO_MIN_US SERVO_MAX_US SERVO_PERIOD_US
      SERVO_MAX_DUTY).2.2 (by decide)⟩

/-- C6: for angles `a1 ≤ a2` in [0, 180] and fixed parameters with
`0 ≤ min_pulse_us ≤ max_pulse_us`, `0 ≤ period_us` and `0 ≤ max_duty`,
the duty computed by `set_servo_angle`'s arithmetic at `a1` is at most
the duty at `a2`. -/
theorem to_pulse_monotone (a1 a2 min_pulse_us max_pulse_us period_us max_duty : Int)
    (h0 : 0 ≤ min_pulse_us) (h1 : min_pulse_us ≤ max_pulse_us)
    (hper : 0 ≤ period_us) (hmd : 0 ≤ max_duty)
    (ha1 : 0 ≤ a1) (h12 : a1 ≤ a2) (ha2 : a2 ≤ 180) :
    to_pulse a1 min_pulse_us max_pulse_us period_us max_duty ≤
    to_pulse a2 min_pulse_us max_pulse_us period_us max_duty := by
  have hd : 0 ≤ max_pulse_us - min_pulse_us := by omega
  have hn1 : 0 ≤ a1 * (max_pulse_us - min_pulse_us) := mul_nonneg ha1 hd
  have hn2 : 0 ≤ a2 * (max_pulse_us - min_pulse_us) := mul_nonneg (by omega) hd
  have hpulse : pulse_of a1 min_pulse_us max_pulse_us ≤
      pulse_of a2 min_pulse_us max_pulse_us := by
    unfold pulse_of
    rw [clamp_int_eq_self ha1 (by omega), clamp_int_eq_self (by omega) ha2,
      Int.tdiv_eq_ediv hn1 (by norm_num), Int.tdiv_eq_ediv hn2 (by norm_num)]
    have hm : a1 * (max_pulse_us - min_pulse_us) ≤
        a2 * (max_pulse_us - min_pulse_us) :=
      mul_le_mul_of_nonneg_right h12 hd
    exact add_le_add_left (Int.ediv_le_ediv (by norm_num) hm) min_pulse_us
  have hp1 : 0 ≤ pulse_of a1 min_pulse_us max_pulse_us :=
    le_trans h0 (pulse_of_bounds a1 min_pulse_us max_pulse_us h1).1
  have hp2 : 0 ≤ pulse_of a2 min_pulse_us max_pulse_us :=
    le_trans h0 (pulse_of_bounds a2 min_pulse_us max_pulse_us h1).1
  unfold to_pulse
  rw [Int.tdiv_eq_ediv (mul_nonneg hp1 hmd) hper,
    Int.tdiv_eq_ediv (mul_nonneg hp2 hmd) hper]
  rcases eq_or_lt_of_le hper with hz | hpos
  · rw [← hz]
    simp
  · exact Int.ediv_le_ediv hpos (mul_le_mul_of_nonneg_right hpulse hmd)

theorem to_pulse_monotone_witness :
    to_pulse 30 SERVO_MIN_US SERVO_MAX_US SERVO_PERIOD_US SERVO_MAX_DUTY ≤
    to_pulse 150 SERVO_MIN_US SERVO_MAX_US SERVO_PERIOD_US SERVO_MAX_DUTY :=
  to_pulse_monotone 30 150 SERVO_MIN_US SERVO_MAX_US SERVO_PERIOD_US
    SERVO_MAX_DUTY (by decide) (by decide) (by decide) (by decide)
    (by decide) (by decide) (by decide)

/-- C10: for every pair of integer readings, the composed pipeline's
tilt angle is one of 30, 90, 150 and the resulting duty one of
334, 593, 853. -/
theorem pipeline_image (e w : Int) :
    (compute_tilt_angle (detect_sun_direction e w) = 30 ∨
      compute_tilt_angle (detect_sun_direction e w) = 90 ∨
      compute_tilt_angle (detect_sun_direction e w) = 150) ∧
    (servo_duty (compute_tilt_angle (detect_sun_direction e w)) = 334 ∨
      servo_duty (compute_tilt_angle (detect_sun_direction e w)) = 593 ∨
      servo_duty (compute_tilt_angle (detect_sun_direction e w)) = 853) := by
  have hd : detect_sun_direction e w = SUN_EAST ∨
      detect_sun_direction e w = SUN_OVERHEAD ∨
      detect_sun_direction e w = SUN_WEST := by
    unfold detect_sun_direction classify
    dsimp only
    split_ifs <;> simp
  rcases hd with h | h | h <;> rw [h] <;> exact ⟨by decide, by decide⟩

/-- C7: a failed ThingSpeak upload does not change the duty already
driven in the cycle, the cycle still completes, and the loop proceeds
to the next cycle. -/
theorem uplink_failure_harmless (e w : Int) (u : Bool) (rest : List CycleEnv) :
    cycle_duty (run_cycle ⟨some (e, w), true, u⟩) =
      cycle_duty (run_cycle ⟨some (e, w), true, true⟩) ∧
    cycle_completed (run_cycle ⟨some (e, w), true, u⟩) = true ∧
    run_loop (⟨some (e, w), true, u⟩ :: rest) =
      run_cycle ⟨some (e, w), true, u⟩ :: run_loop rest := by
  refine ⟨rfl, rfl, ?_⟩
  simp [run_loop, run_cycle]

/-- C8: a failed sensor read or a failed actuator write aborts the
process: the cycle's remaining steps never run (the outcome is not
`completed`, so no telemetry is attempted) and no further cycle of the
loop executes. -/
theorem sensor_actuator_failfast (e w : Int) (act u : Bool) (rest : List CycleEnv) :
    run_cycle ⟨none, act, u⟩ = CycleOutcome.abortedSensor ∧
    run_loop (⟨none, act, u⟩ :: rest) = [CycleOutcome.abortedSensor] ∧
    run_cycle ⟨some (e, w), false, u⟩ = CycleOutcome.abortedActuator
      (servo_duty (compute_tilt_angle (detect_sun_direction e w))) ∧
    run_loop (⟨some (e, w), false, u⟩ :: rest) = [CycleOutcome.abortedActuator
      (servo_duty (compute_tilt_angle (detect_sun_direction e w)))] ∧
    cycle_completed (run_cycle ⟨none, act, u⟩) = false ∧
    cycle_completed (run_cycle ⟨some (e, w), false, u⟩) = false := by
  refine ⟨rfl, ?_, rfl, ?_, rfl, rfl⟩ <;> simp [run_loop, run_cycle]

/-- C9: each cycle's telemetry is one HTTP GET to the fixed ThingSpeak
endpoint with `api_key`, `field1` = east, `field2` = west, `field3` =
direction, `field4` = angle, and the direction travels on the wire as
the ordinal of the abstract `SunDirection` (East=0, Overhead=1,
West=2). -/
theorem telemetry_wire_format (e w : Int) :
    send_to_thingspeak e w (detect_sun_direction e w)
        (compute_tilt_angle (detect_sun_direction e w)) =
      ⟨"http://api.thingspeak.com/update?api_key=JA0W2AWRBR5KH8ZF" ++
          "&field1=" ++ toString e ++
          "&field2=" ++ toString w ++
          "&field3=" ++ toString (ordinal (classify_spec e w LDR_THRESHOLD)) ++
          "&field4=" ++ toString (compute_tilt_angle (detect_sun_direction e w)),
        "GET"⟩ ∧
    detect_sun_direction e w = ordinal (classify_spec e w LDR_THRESHOLD) := by
  have h : detect_sun_direction e w = ordinal (classify_spec e w LDR_THRESHOLD) := by
    unfold detect_sun_direction classify classify_spec ordinal
    dsimp only
    split_ifs <;> rfl
  have hak : ("http://api.thingspeak.com/update?api_key=" ++ THINGSPEAK_API_KEY :
      String) = "http://api.thingspeak.com/update?api_key=JA0W2AWRBR5KH8ZF" := by
    decide
  refine ⟨?_, h⟩
  rw [h]
  unfold send_to_thingspeak thingspeak_url
  rw [hak]

end SolarTracker
